import Mathlib

/-!
Verification development for the `migrate_services` repository.

The definitions below are a shallow embedding of the Python source under
`app/api/`.  Machine specifics are modelled as follows:

* wall-clock readings (`datetime.utcnow()`) are passed explicitly as a `Nat`
  argument `now`; one call of a storage operation uses one clock reading;
* Python `dict`s with insertion order are association lists
  (`List (key × value)`), with `dict[k] = v` replacing in place when the key
  exists and appending otherwise;
* `asyncio.Queue` objects are identified by a freshness counter (`Nat`), the
  per-queue contents being kept in a separate buffer table, which models
  Python object identity of newly constructed queues;
* JSON values are the inductive `Value` below.

Components of the repository that the spec describes but whose files are not
part of the provided source (`app/services/transformer.py`,
`app/services/validator.py`, `app/api/models.py`) are modelled from the spec
and carry a doc comment saying so.
-/

/-- JSON-like runtime values of the Python code (record fields, transform
configuration entries).  Numbers are modelled as integers. -/
inductive Value where
  | vNull
  | vStr (s : String)
  | vInt (n : Int)
  | vBool (b : Bool)
  | vObj (fields : List (String × Value))
  | vArr (items : List Value)

/-- Association-list lookup, the embedding of Python `dict.get` /
`key in dict`. -/
def alGet {α : Type} : List (String × α) → String → Option α
  | [], _ => none
  | (k, v) :: t, key => if k = key then some v else alGet t key

/-- Association-list update: `d[k] = v` when the key may already be present
(replace in place, preserving order) or absent (append). -/
def alSet {α : Type} : List (String × α) → String → α → List (String × α)
  | [], key, v => [(key, v)]
  | (k, w) :: t, key, v =>
    if k = key then (key, v) :: t else (k, w) :: alSet t key v

/-- Association-list deletion: `del d[k]`. -/
def alDel {α : Type} : List (String × α) → String → List (String × α)
  | [], _ => []
  | (k, w) :: t, key => if k = key then t else (k, w) :: alDel t key

/-- The `MigrationStatusEnum` of `app/api/models.py`, with the five states of
spec section 4.3 plus the two intermediate phases. -/
inductive MigrationStatusEnum where
  | DRAFT
  | EXTRACTING
  | TRANSFORMING
  | LOADING
  | COMPLETED
  | FAILED
  | CANCELLED
deriving DecidableEq, Repr

/-- The field-mapping record manipulated by the transform engine and stored in
mappings: source field path, target field name, transform kind and its
configuration (spec section 3, `FieldMapping`).  The transform kind is a free
string in the source (duck-typed dispatch), not a closed enum. -/
structure FieldMapping where
  source_field : String
  target_field : String
  transform : String
  config : List (String × Value)

/-- The entity-mapping record (spec section 3, `EntityMapping`). -/
structure EntityMapping where
  source_service : String
  source_entity : String
  target_service : String
  target_entity : String
  field_mappings : List FieldMapping

/-- The `MigrationResponse` pydantic model as constructed by
`MigrationStorage.create` (`app/api/storage.py`, lines 32-45).  Timestamps are
`Nat` clock readings; the optional ones default to `none` as in the model. -/
structure MigrationResponse where
  id : String
  name : String
  description : String
  status : MigrationStatusEnum
  sources : List String
  target_service : String
  target_site : String
  entity_mappings : List EntityMapping
  dry_run : Bool
  batch_size : Nat
  created_at : Nat
  updated_at : Nat
  started_at : Option Nat := none
  completed_at : Option Nat := none

/-- The `_migrations` dictionary of `MigrationStorage`. -/
abbrev MigrationsMap := List (String × MigrationResponse)

/-- Modelled from the spec: the `MigrationUpdate` pydantic model
(`app/api/models.py` is absent from the source).  Fields are optional patches;
`model_dump(exclude_unset := True)` in `MigrationStorage.update` applies only
the fields that were set, which the `Option` fields model. -/
structure MigrationUpdate where
  name : Option String := none
  description : Option String := none
  dry_run : Option Bool := none
  batch_size : Option Nat := none

namespace MigrationStorage

/-- `MigrationStorage.get` (`app/api/storage.py`, lines 50-51). -/
def get (ms : MigrationsMap) (migration_id : String) : Option MigrationResponse :=
  alGet ms migration_id

/-- `MigrationStorage.update` (`app/api/storage.py`, lines 56-68): returns
`None` and leaves the map unchanged when the id is absent; otherwise applies
the set fields of the patch, stamps `updated_at`, and stores back. -/
def update (ms : MigrationsMap) (migration_id : String) (data : MigrationUpdate)
    (now : Nat) : Option MigrationResponse × MigrationsMap :=
  match alGet ms migration_id with
  | none => (none, ms)
  | some migration =>
    let migration :=
      { migration with
        name := data.name.getD migration.name
        description := data.description.getD migration.description
        dry_run := data.dry_run.getD migration.dry_run
        batch_size := data.batch_size.getD migration.batch_size
        updated_at := now }
    (some migration, alSet ms migration_id migration)

/-- `MigrationStorage.delete` (`app/api/storage.py`, lines 70-74). -/
def delete (ms : MigrationsMap) (migration_id : String) : Bool × MigrationsMap :=
  if (alGet ms migration_id).isSome then (true, alDel ms migration_id)
  else (false, ms)

/-- The mutation block of `MigrationStorage.update_status`
(`app/api/storage.py`, lines 81-87): the status is applied unconditionally;
`started_at` is set when entering EXTRACTING with `started_at` still unset
(Python `not migration.started_at`, `None` being falsy); `completed_at` is
set on every entry into a terminal status. -/
def applyStatus (migration : MigrationResponse) (status : MigrationStatusEnum)
    (now : Nat) : MigrationResponse :=
  let migration := { migration with status := status, updated_at := now }
  if status = .EXTRACTING ∧ migration.started_at = none then
    { migration with started_at := some now }
  else if status = .COMPLETED ∨ status = .FAILED ∨ status = .CANCELLED then
    { migration with completed_at := some now }
  else migration

/-- `MigrationStorage.update_status` (`app/api/storage.py`, lines 76-90):
returns `None` and leaves the map unchanged when the id is absent; otherwise
applies the mutation block above and stores the migration back. -/
def update_status (ms : MigrationsMap) (migration_id : String)
    (status : MigrationStatusEnum) (now : Nat) :
    Option MigrationResponse × MigrationsMap :=
  match alGet ms migration_id with
  | none => (none, ms)
  | some migration =>
    let migration := applyStatus migration status now
    (some migration, alSet ms migration_id migration)

end MigrationStorage

/-! The progress broadcaster of `app/api/routes/events.py`. -/

/-- A channel identifier standing for one `asyncio.Queue` object; a fresh
counter value models the identity of a newly constructed queue. -/
abbrev Channel := Nat

/-- An event dictionary as passed to `_broadcast`.  Only the `"type"` key is
inspected by the code under study (`event.get("type")`); the rest of the
dictionary is carried as an opaque payload.  `etype = none` models a
dictionary without a `"type"` key. -/
structure SSEvent where
  etype : Option String
  payload : List (String × String) := []
deriving DecidableEq, Repr

/-- The `MigrationProgressManager` state: the `_queues` registry
(migration id to set of subscribed queues, `Dict[str, Set[asyncio.Queue]]`),
together with the contents of every queue created so far and the freshness
counter for queue identities. -/
structure MigrationProgressManager where
  nextCh : Channel
  queues : List (String × List Channel)
  buffers : List (Channel × List SSEvent)
deriving DecidableEq, Repr

namespace MigrationProgressManager

/-- `MigrationProgressManager.subscribe` (`events.py`, lines 19-26): create
the registry entry if absent, construct a fresh queue, add it to the entry and
return it. -/
def subscribe (m : MigrationProgressManager) (migration_id : String) :
    Channel × MigrationProgressManager :=
  let q := m.nextCh
  let queues :=
    match alGet m.queues migration_id with
    | none => m.queues ++ [(migration_id, [q])]
    | some chs => alSet m.queues migration_id (chs ++ [q])
  (q, { nextCh := q + 1, queues := queues, buffers := m.buffers ++ [(q, [])] })

/-- `MigrationProgressManager.unsubscribe` (`events.py`, lines 28-33): discard
the queue from the id's entry when the id is known, and delete the entry once
it is empty.  The queue object itself is not destroyed. -/
def unsubscribe (m : MigrationProgressManager) (migration_id : String)
    (queue : Channel) : MigrationProgressManager :=
  match alGet m.queues migration_id with
  | none => m
  | some chs =>
    let chs := chs.erase queue
    if chs.isEmpty then { m with queues := alDel m.queues migration_id }
    else { m with queues := alSet m.queues migration_id chs }

/-- `queue.put` on one channel's buffer: append the event to that channel's
queue contents. -/
def pushEvent (bufs : List (Channel × List SSEvent)) (ch : Channel)
    (e : SSEvent) : List (Channel × List SSEvent) :=
  bufs.map fun p => if p.1 = ch then (p.1, p.2 ++ [e]) else p

/-- `MigrationProgressManager._broadcast` (`events.py`, lines 35-41): return
unchanged when the id has no registry entry, otherwise put the event on every
subscribed queue. -/
def broadcast (m : MigrationProgressManager) (migration_id : String)
    (e : SSEvent) : MigrationProgressManager :=
  match alGet m.queues migration_id with
  | none => m
  | some chs =>
    { m with buffers := chs.foldl (fun bufs ch => pushEvent bufs ch e) m.buffers }

/-- Well-formedness of a reachable manager state: registry keys are distinct,
every registry entry is a non-empty duplicate-free set of channels, and every
registered channel was created before the freshness counter. -/
def WF (m : MigrationProgressManager) : Prop :=
  (m.queues.map Prod.fst).Nodup ∧
  ∀ p ∈ m.queues, p.2 ≠ [] ∧ p.2.Nodup ∧ ∀ ch ∈ p.2, ch < m.nextCh

instance (m : MigrationProgressManager) : Decidable (WF m) := by
  unfold WF; infer_instance

end MigrationProgressManager

/-! The SSE endpoint `migration_events` of `app/api/routes/events.py`
(lines 116-152).  Real time is abstracted: the generator's 30-second
`asyncio.wait_for` wait is modelled by a list of arrivals, where `some e` is
an event taken from the subscriber's queue within the idle window and `none`
is an expiry of the 30-second idle window (`asyncio.TimeoutError`).  A finite
arrivals list also models the client disconnecting after consuming it;
the `finally` block's unsubscribe is applied on every way out of the loop. -/

/-- One frame yielded by the SSE generator: the initial `connected` frame, an
event frame named by the event's type (default name `message`), or a
keepalive frame. -/
inductive StreamItem where
  | connected
  | message (ename : String) (e : SSEvent)
  | keepalive
deriving DecidableEq, Repr

/-- The stop condition of the generator loop (`events.py`, line 139):
`event.get("type") in ("complete", "error")`. -/
def isTerminalEvent (e : SSEvent) : Bool :=
  e.etype = some "complete" || e.etype = some "error"

/-- The `while True` loop of the event generator: a timeout yields a
keepalive and continues; an event is forwarded under its type name and the
loop breaks after a `complete`/`error` event. -/
def eventLoop : List (Option SSEvent) → List StreamItem
  | [] => []
  | none :: rest => .keepalive :: eventLoop rest
  | some e :: rest =>
    .message (e.etype.getD "message") e ::
      (if isTerminalEvent e then [] else eventLoop rest)

/-- `migration_events` (`events.py`, lines 116-152): subscribe, yield the
`connected` frame, run the generator loop over the arrivals, and in all cases
unsubscribe the queue on the way out (the `finally` block).  Returns the
yielded frames and the manager state after the session. -/
def migration_events (m : MigrationProgressManager) (migration_id : String)
    (arrivals : List (Option SSEvent)) :
    List StreamItem × MigrationProgressManager :=
  let (queue, m1) := m.subscribe migration_id
  (.connected :: eventLoop arrivals, m1.unsubscribe migration_id queue)

/-! String helpers over the character list of a `String`, used by the
transform engine model.  They are written over `String.data` so that concrete
instances reduce inside the kernel. -/

/-- Split a character list at a separator character, Python
`s.split(sep)`-style: `""` splits to `[""]`. -/
def splitCharsOn (sep : Char) : List Char → List (List Char)
  | [] => [[]]
  | c :: cs =>
    let rest := splitCharsOn sep cs
    if c = sep then [] :: rest
    else
      match rest with
      | h :: t => (c :: h) :: t
      | [] => [[c]]

/-- Split a string at a separator character. -/
def strSplitOn (sep : Char) (s : String) : List String :=
  (splitCharsOn sep s.data).map String.mk

/-- Python `str.split()` with no argument: split on spaces and drop the empty
pieces. -/
def strWords (s : String) : List String :=
  (strSplitOn ' ' s).filter (· ≠ "")

/-- Whether `p` is an initial run of `s` (used by the prefix-strip
transform). -/
def strStartsWith (s p : String) : Bool :=
  s.data.take p.data.length = p.data

/-- Remove the first `n` characters of a string. -/
def strDrop (s : String) (n : Nat) : String :=
  String.mk (s.data.drop n)

/-- Uppercase every character of a string. -/
def strUpper (s : String) : String :=
  String.mk (s.data.map Char.toUpper)

/-- Lowercase every character of a string. -/
def strLower (s : String) : String :=
  String.mk (s.data.map Char.toLower)

/-- Python `str.strip()`: remove whitespace from both ends. -/
def strStrip (s : String) : String :=
  String.mk (((s.data.dropWhile (· = ' ')).reverse.dropWhile (· = ' ')).reverse)

/-! The data entities consumed by the transform engine
(`app/models/record.py`, absent from the source, shaped by their use in
`app/api/routes/preview.py`). -/

/-- The `SourceRecord` constructed by `preview_transformation`
(`preview.py`, lines 19-24). -/
structure SourceRecord where
  id : String
  source_service : String
  source_entity : String
  data : List (String × Value)

/-- The `TransformedRecord` produced by one transform-engine invocation:
target-field data plus the per-field validation errors collected during the
transform (spec section 3). -/
structure TransformedRecord where
  data : List (String × Value)
  validation_errors : List String

/-- Dotted-path resolution into nested objects and sequences (spec section
4.1: `dotted paths index into nested mappings/sequences; a missing path
yields the identity "empty" value, not an error`). -/
def resolveSegs : Value → List String → Option Value
  | v, [] => some v
  | .vObj fs, s :: rest =>
    match alGet fs s with
    | some v => resolveSegs v rest
    | none => none
  | .vArr xs, s :: rest =>
    match s.toNat? with
    | some i =>
      match xs.get? i with
      | some v => resolveSegs v rest
      | none => none
    | none => none
  | _, _ :: _ => none

/-- Resolve a dotted field path against a record's data. -/
def resolvePath (record : List (String × Value)) (path : String) : Option Value :=
  resolveSegs (.vObj record) (strSplitOn '.' path)

/-- String coercion of a scalar value; objects, arrays and null are not
string-coercible (spec section 4.1: several kinds fail `if source not
string-coercible`). -/
def Value.coerceString : Value → Option String
  | .vStr s => some s
  | .vInt n => some (toString n)
  | .vBool b => some (if b then "true" else "false")
  | _ => none

/-- Whether a value counts as empty/absent for the `default` transform and
the required-field check (null or the empty string). -/
def Value.isEmptyValue : Value → Bool
  | .vNull => true
  | .vStr s => s = ""
  | _ => false

/-- Outcome of one per-field transform: a value, a per-field transform error
(recorded as a validation error on the record, spec section 7 taxonomy (b)),
or a configuration error (unknown kind or malformed configuration, taxonomy
(a), which aborts the whole invocation fail-fast). -/
inductive TransformOutcome where
  | ok (v : Value)
  | fieldError (msg : String)
  | configError (msg : String)

/-- Fetch a string-valued configuration option. -/
def getStrConfig (config : List (String × Value)) (key : String) : Option String :=
  match alGet config key with
  | some (.vStr s) => some s
  | _ => none

/-- The `split_name` rule (spec section 4.1): split a full-name string on
whitespace and return the first/last/middle part, the empty string when the
part is absent. -/
def splitNamePart (part : String) (s : String) : String :=
  let parts := strWords s
  if part = "first" then (parts.head?).getD ""
  else if part = "last" then
    if parts.length ≥ 2 then (parts.getLast?).getD "" else ""
  else if part = "middle" then
    if parts.length ≥ 3 then String.intercalate " " (parts.drop 1).dropLast else ""
  else ""

/-- Modelled from the spec: the per-field dispatch of the Transform Engine
(`app/services/transformer.py` is absent from the source; spec section 4.1).
The string/lookup kinds (`direct`, `prefix_add`, `prefix_strip`,
`split_name`, `enum_map`, `default`, `uppercase`, `lowercase`, `trim`,
`concat`, `nested_get`) are modelled per the spec table; the calendar,
country-table, currency, template and sandboxed-expression kinds
(`iso_to_unix`, `unix_to_iso`, `country_code`, `currency_convert`,
`template`, `computed`) are outside this model — no claim exercises them —
and fall, like every unrecognized kind, to the unknown-kind configuration
error (spec: `Unknown transform kind is a configuration error raised before
any record is processed`). -/
def applyTransform (record : List (String × Value)) (sourceVal : Option Value)
    (transform : String) (config : List (String × Value)) : TransformOutcome :=
  let sv := sourceVal.getD .vNull
  if transform = "direct" then .ok sv
  else if transform = "prefix_add" then
    match getStrConfig config "prefix" with
    | none => .configError "prefix_add: missing required option prefix"
    | some pfx =>
      match sv.coerceString with
      | some s => .ok (.vStr (pfx ++ s))
      | none => .fieldError "prefix_add: source not string-coercible"
  else if transform = "prefix_strip" then
    match getStrConfig config "prefix" with
    | none => .configError "prefix_strip: missing required option prefix"
    | some pfx =>
      match sv.coerceString with
      | some s =>
        .ok (.vStr (if strStartsWith s pfx then strDrop s pfx.data.length else s))
      | none => .fieldError "prefix_strip: source not string-coercible"
  else if transform = "split_name" then
    match getStrConfig config "part" with
    | none => .configError "split_name: missing required option part"
    | some part => .ok (.vStr (splitNamePart part (sv.coerceString.getD "")))
  else if transform = "enum_map" then
    match alGet config "mapping" with
    | some (.vObj table) =>
      match alGet table (sv.coerceString.getD "") with
      | some v => .ok v
      | none => .ok sv
    | _ => .configError "enum_map: missing required option mapping"
  else if transform = "default" then
    match alGet config "value" with
    | some v => .ok (if sv.isEmptyValue then v else sv)
    | none => .configError "default: missing required option value"
  else if transform = "uppercase" then
    match sv.coerceString with
    | some s => .ok (.vStr (strUpper s))
    | none => .fieldError "uppercase: source not string-coercible"
  else if transform = "lowercase" then
    match sv.coerceString with
    | some s => .ok (.vStr (strLower s))
    | none => .fieldError "lowercase: source not string-coercible"
  else if transform = "trim" then
    match sv.coerceString with
    | some s => .ok (.vStr (strStrip s))
    | none => .fieldError "trim: source not string-coercible"
  else if transform = "concat" then
    match alGet config "fields" with
    | some (.vArr fs) =>
      let sep := (getStrConfig config "separator").getD " "
      let vals := fs.map fun f =>
        match f with
        | .vStr name => (((resolvePath record name).getD .vNull).coerceString).getD ""
        | _ => ""
      .ok (.vStr (String.intercalate sep vals))
    | _ => .configError "concat: missing required option fields"
  else if transform = "nested_get" then
    match getStrConfig config "path" with
    | some p => .ok ((resolvePath record p).getD .vNull)
    | none => .configError "nested_get: missing required option path"
  else .configError ("Unknown transform type: " ++ transform)

/-- Modelled from the spec: the Transform Engine's record transformation
(`app/services/transformer.py` is absent from the source; spec section 4.1).
Each field mapping is evaluated independently on the single source record;
a per-field transform failure is attached as one validation error rather than
aborting, the engine always yields a `TransformedRecord` unless a
configuration error aborts the invocation fail-fast.  The multi-source join
(secondary `source` tags) is not modelled: preview always passes one
record. -/
def transformFields (record : SourceRecord) :
    List FieldMapping → Except String (List (String × Value) × List String)
  | [] => .ok ([], [])
  | fm :: rest =>
    match applyTransform record.data (resolvePath record.data fm.source_field)
        fm.transform fm.config with
    | .configError msg => .error msg
    | .ok v =>
      (transformFields record rest).map fun p => ((fm.target_field, v) :: p.1, p.2)
    | .fieldError msg =>
      (transformFields record rest).map fun p =>
        (p.1, (fm.target_field ++ " (" ++ fm.transform ++ "): " ++ msg) :: p.2)

/-- Modelled from the spec: `TransformEngine.transform_record` as invoked by
`preview_transformation` — produce the target data and the per-field
validation errors for one source record under one entity mapping. -/
def transform_record (record : SourceRecord) (mapping : EntityMapping) :
    Except String TransformedRecord :=
  (transformFields record mapping.field_mappings).map fun p =>
    { data := p.1, validation_errors := p.2 }

/-! The Record Validator (spec section 4.2) and the schema entities it
consumes (`FieldSchema`/`EntitySchema` as used in
`app/api/routes/schemas.py`). -/

/-- One target field of an entity schema (`FieldSchema` of
`app/api/models.py`, as instantiated in `schemas.py`). -/
structure FieldSchema where
  name : String
  ftype : String
  required : Bool

/-- An entity schema: the named, typed, required/optional target fields
(`EntitySchema`). -/
structure EntitySchema where
  service : String
  entity : String
  fields : List FieldSchema

/-- Modelled from the spec: runtime-type compatibility of a value with a
declared field type (`app/services/validator.py` is absent from the source;
spec section 4.2: `loose coercion allowed for integer/number, strict for
boolean/object/array`).  Loose coercion admits a digit string for the numeric
types; an unknown declared type constrains nothing. -/
def typeCompatible (declared : String) (v : Value) : Bool :=
  if declared = "string" then
    match v with
    | .vStr _ => true
    | _ => false
  else if declared = "integer" ∨ declared = "number" then
    match v with
    | .vInt _ => true
    | .vStr s => s.toInt?.isSome
    | _ => false
  else if declared = "boolean" then
    match v with
    | .vBool _ => true
    | _ => false
  else if declared = "object" then
    match v with
    | .vObj _ => true
    | _ => false
  else if declared = "array" then
    match v with
    | .vArr _ => true
    | _ => false
  else true

/-- Modelled from the spec: the Record Validator
(`app/services/validator.py` is absent from the source; spec section 4.2).
Appends one error per required field absent or empty and per type-incompatible
field, merges them with the errors already on the record, and reports
`is_valid` as the emptiness of the merged list.  Pure. -/
def RecordValidator.validate (tr : TransformedRecord) (schema : EntitySchema) :
    List String × Bool :=
  let newErrs := schema.fields.foldr
    (fun f acc =>
      match alGet tr.data f.name with
      | none => if f.required then ("required field missing: " ++ f.name) :: acc else acc
      | some v =>
        if f.required ∧ v.isEmptyValue then
          ("required field empty: " ++ f.name) :: acc
        else if typeCompatible f.ftype v then acc
        else ("type mismatch: " ++ f.name) :: acc)
    []
  let allErrs := tr.validation_errors ++ newErrs
  (allErrs, allErrs.isEmpty)

/-! The preview endpoint of `app/api/routes/preview.py`. -/

/-- The `PreviewRequest` body (`app/api/models.py`, shaped by its use in
`preview.py`, lines 19-43). -/
structure PreviewRequest where
  source_service : String
  source_entity : String
  target_service : String
  target_entity : String
  source_record : List (String × Value)
  field_mappings : List FieldMapping

/-- The `PreviewResponse` body (`preview.py`, lines 62-67). -/
structure PreviewResponse where
  source_data : List (String × Value)
  transformed_data : List (String × Value)
  validation_errors : List String
  is_valid : Bool

/-- The `SourceRecord` built by `preview_transformation` (`preview.py`,
lines 19-24): `data.source_record.get("id", "preview")` plus the request's
service/entity tags and record data. -/
def previewSourceRecord (data : PreviewRequest) : SourceRecord :=
  { id :=
      match alGet data.source_record "id" with
      | some v => v.coerceString.getD "preview"
      | none => "preview"
    source_service := data.source_service
    source_entity := data.source_entity
    data := data.source_record }

/-- The `EntityMapping` built by `preview_transformation` (`preview.py`,
lines 27-43) from the request's field mappings. -/
def previewEntityMapping (data : PreviewRequest) : EntityMapping :=
  { source_service := data.source_service
    source_entity := data.source_entity
    target_service := data.target_service
    target_entity := data.target_entity
    field_mappings := data.field_mappings }

/-- `preview_transformation` (`preview.py`, lines 14-70): build the source
record and entity mapping, run the transform engine, and report `is_valid`
from the transform-time `validation_errors` alone (lines 54-60 — the imported
`RecordValidator` is never invoked and no schema check is performed); any
exception becomes an HTTP 400 rejection, modelled as `Except.error`. -/
def preview_transformation (data : PreviewRequest) :
    Except String PreviewResponse :=
  match transform_record (previewSourceRecord data) (previewEntityMapping data) with
  | .error e => .error e
  | .ok transformed =>
    let validation_errors :=
      if transformed.validation_errors.isEmpty then []
      else transformed.validation_errors
    let is_valid := transformed.validation_errors.isEmpty
    .ok { source_data := data.source_record
          transformed_data := transformed.data
          validation_errors := validation_errors
          is_valid := is_valid }

/-! The mapping storage (`app/api/storage.py`, `MappingStorage`) and the
mapping endpoints of `app/api/routes/mappings.py`. -/

/-- The `MappingSaveRequest` body (`app/api/models.py`, shaped by its use in
`MappingStorage.create`, lines 152-168). -/
structure MappingSaveRequest where
  name : String
  source_service : String
  source_entity : String
  target_service : String
  target_entity : String
  field_mappings : List FieldMapping

/-- The stored `MappingResponse` (`storage.py`, lines 136-146 and
152-168). -/
structure MappingResponse where
  id : String
  name : String
  source_service : String
  source_entity : String
  target_service : String
  target_entity : String
  field_mappings : List FieldMapping
  created_at : Nat
  additional_sources : List String := []

/-- The `_mappings` dictionary of `MappingStorage`. -/
abbrev MappingsMap := List (String × MappingResponse)

/-- `MappingStorage.create` (`storage.py`, lines 152-168): store the request's
field mappings verbatim under a fresh id — no validation of transform kinds.
The non-deterministic `uuid.uuid4()` and the clock are passed explicitly. -/
def MappingStorage.create (store : MappingsMap) (mapping_id : String)
    (now : Nat) (data : MappingSaveRequest) : MappingResponse × MappingsMap :=
  let mapping : MappingResponse :=
    { id := mapping_id
      name := data.name
      source_service := data.source_service
      source_entity := data.source_entity
      target_service := data.target_service
      target_entity := data.target_entity
      field_mappings := data.field_mappings
      created_at := now }
  (mapping, alSet store mapping_id mapping)

/-- `save_mapping` (`app/api/routes/mappings.py`, lines 11-14): it simply
returns `mapping_storage.create(data)`; there is no validation and no path
that rejects a request. -/
def save_mapping (store : MappingsMap) (mapping_id : String) (now : Nat)
    (data : MappingSaveRequest) : MappingResponse × MappingsMap :=
  MappingStorage.create store mapping_id now data

/-- One field-mapping dictionary as read from a mapping JSON file
(`storage.py`, `_load_from_files`): every key may be absent (or null, which
`dict.get` defaults conflate for the string fields via the `or ""`
pattern). -/
structure FileFieldMapping where
  source_field : Option String := none
  target_field : Option String := none
  transform : Option String := none
  transform_config : List (String × Value) := []
  notes : Option String := none
  source : Option String := none

/-- The per-field conversion of `MappingStorage._load_from_files`
(`storage.py`, lines 126-134): `fm.get("source_field") or ""`,
`fm.get("transform", "direct")`, and so on.  An absent transform kind is
silently replaced by `"direct"`. -/
def loadFieldMapping (fm : FileFieldMapping) : FieldMapping :=
  { source_field := fm.source_field.getD ""
    target_field := fm.target_field.getD ""
    transform := fm.transform.getD "direct"
    config := fm.transform_config }

/-- The names of the `TRANSFORM_TYPES` catalog
(`app/api/routes/mappings.py`, lines 42-134) — the seventeen recognized
transform kinds.  Only the names are embedded; the catalog's description and
configuration-schema entries are served verbatim to the UI and play no role
in the claims. -/
def TRANSFORM_TYPES : List String :=
  ["direct", "prefix_add", "prefix_strip", "split_name", "enum_map",
   "iso_to_unix", "unix_to_iso", "country_code", "currency_convert",
   "concat", "template", "default", "computed", "uppercase", "lowercase",
   "trim", "nested_get"]

/-! Helper lemmas about the association-list operations and the status
mutation block. -/

theorem alGet_alSet {α : Type} (l : List (String × α)) (k : String) (v : α) :
    alGet (alSet l k v) k = some v := by
  induction l with
  | nil => simp [alSet, alGet]
  | cons p t ih =>
    obtain ⟨k', w⟩ := p
    by_cases h : k' = k
    · simp [alSet, alGet, h]
    · simp [alSet, alGet, h, ih]

theorem applyStatus_status (m : MigrationResponse) (s : MigrationStatusEnum)
    (now : Nat) : (MigrationStorage.applyStatus m s now).status = s := by
  simp only [MigrationStorage.applyStatus]
  split_ifs <;> rfl

theorem applyStatus_updated_at (m : MigrationResponse) (s : MigrationStatusEnum)
    (now : Nat) : (MigrationStorage.applyStatus m s now).updated_at = now := by
  simp only [MigrationStorage.applyStatus]
  split_ifs <;> rfl

theorem applyStatus_started_at (m : MigrationResponse) (s : MigrationStatusEnum)
    (now : Nat) :
    (MigrationStorage.applyStatus m s now).started_at =
      if s = .EXTRACTING ∧ m.started_at = none then some now
      else m.started_at := by
  simp only [MigrationStorage.applyStatus]
  split_ifs <;> rfl

theorem applyStatus_completed_at (m : MigrationResponse) (s : MigrationStatusEnum)
    (now : Nat) :
    (MigrationStorage.applyStatus m s now).completed_at =
      if s = .COMPLETED ∨ s = .FAILED ∨ s = .CANCELLED then some now
      else m.completed_at := by
  simp only [MigrationStorage.applyStatus]
  split_ifs with h1 h2 <;> first
    | rfl
    | (obtain ⟨h1a, _⟩ := h1; subst h1a; simp_all)

theorem update_status_some (ms : MigrationsMap) (id : String)
    (s : MigrationStatusEnum) (now : Nat) (m : MigrationResponse)
    (h : alGet ms id = some m) :
    MigrationStorage.update_status ms id s now =
      (some (MigrationStorage.applyStatus m s now),
       alSet ms id (MigrationStorage.applyStatus m s now)) := by
  unfold MigrationStorage.update_status
  rw [h]

/-! Concrete migrations used by the closed statements below. -/

/-- A freshly created migration, still in DRAFT. -/
def exMigDraft : MigrationResponse :=
  { id := "m0", name := "demo", description := "", status := MigrationStatusEnum.DRAFT
    sources := [], target_service := "crm", target_site := ""
    entity_mappings := [], dry_run := false, batch_size := 10
    created_at := 0, updated_at := 0 }

/-- A storage map holding only the DRAFT migration. -/
def exMsDraft : MigrationsMap := [("m0", exMigDraft)]

/-- A migration that has already reached the terminal COMPLETED status. -/
def exMigCompleted : MigrationResponse :=
  { exMigDraft with
    id := "m1"
    status := MigrationStatusEnum.COMPLETED
    started_at := some 1
    completed_at := some 2 }

/-- A storage map holding only the COMPLETED migration. -/
def exMsCompleted : MigrationsMap := [("m1", exMigCompleted)]

/-- C1 counterexample: the claim is false on the code.  The stored migration
`m1` has terminal status COMPLETED, yet `update_status` with the phase status
EXTRACTING changes its stored status to EXTRACTING — `update_status` enforces
no state-machine guard. -/
theorem C1_counterexample :
    (alGet exMsCompleted "m1").map MigrationResponse.status =
        some MigrationStatusEnum.COMPLETED ∧
    (alGet (MigrationStorage.update_status exMsCompleted "m1"
        MigrationStatusEnum.EXTRACTING 5).2 "m1").map MigrationResponse.status =
      some MigrationStatusEnum.EXTRACTING := by
  exact ⟨rfl, rfl⟩

/-- C1 (amended): `MigrationStorage.update_status` applies any requested
status unconditionally — for every stored migration, whatever its current
status (DRAFT, terminal or otherwise), updating to any status `s` leaves the
stored migration with status exactly `s`; no transition is refused. -/
theorem C1_update_status_unconditional (ms : MigrationsMap) (id : String)
    (s : MigrationStatusEnum) (now : Nat) (m : MigrationResponse)
    (h : alGet ms id = some m) :
    ((MigrationStorage.update_status ms id s now).1).map MigrationResponse.status
        = some s ∧
    (alGet (MigrationStorage.update_status ms id s now).2 id).map
        MigrationResponse.status = some s := by
  rw [update_status_some ms id s now m h]
  refine ⟨?_, ?_⟩
  · simp [applyStatus_status]
  · rw [alGet_alSet]
    simp [applyStatus_status]

/-- Witness for C1: the COMPLETED migration `m1` is stored, and updating it
to EXTRACTING stores status EXTRACTING. -/
theorem C1_witness :
    alGet exMsCompleted "m1" = some exMigCompleted ∧
    (alGet (MigrationStorage.update_status exMsCompleted "m1"
        MigrationStatusEnum.EXTRACTING 5).2 "m1").map MigrationResponse.status =
      some MigrationStatusEnum.EXTRACTING :=
  ⟨rfl, (C1_update_status_unconditional exMsCompleted "m1"
      MigrationStatusEnum.EXTRACTING 5 exMigCompleted rfl).2⟩

/-- C2: for every stored migration, `update_status` to EXTRACTING sets
`started_at` only when it was previously unset; a `started_at` already set is
never changed by any later `update_status` call; and `update_status` to
COMPLETED, FAILED or CANCELLED sets `completed_at` to the current clock
reading. -/
theorem C2_timestamps (ms : MigrationsMap) (id : String)
    (s : MigrationStatusEnum) (now : Nat) (m : MigrationResponse)
    (h : alGet ms id = some m) :
    (s = MigrationStatusEnum.EXTRACTING ∧ m.started_at = none →
      ((MigrationStorage.update_status ms id s now).1).map
          MigrationResponse.started_at = some (some now)) ∧
    (m.started_at ≠ none →
      ((MigrationStorage.update_status ms id s now).1).map
          MigrationResponse.started_at = some m.started_at) ∧
    (s ≠ MigrationStatusEnum.EXTRACTING →
      ((MigrationStorage.update_status ms id s now).1).map
          MigrationResponse.started_at = some m.started_at) ∧
    (s = MigrationStatusEnum.COMPLETED ∨ s = MigrationStatusEnum.FAILED ∨
        s = MigrationStatusEnum.CANCELLED →
      ((MigrationStorage.update_status ms id s now).1).map
          MigrationResponse.completed_at = some (some now)) := by
  rw [update_status_some ms id s now m h]
  refine ⟨?_, ?_, ?_, ?_⟩
  · intro hc
    simp [applyStatus_started_at, hc.1, hc.2]
  · intro hne
    simp [applyStatus_started_at, hne]
  · intro hne
    simp [applyStatus_started_at, hne]
  · intro ht
    simp [applyStatus_completed_at, ht]

/-- Witness for C2: updating the DRAFT migration (unset `started_at`) to
EXTRACTING at clock 7 returns it with `started_at = 7`. -/
theorem C2_witness :
    alGet exMsDraft "m0" = some exMigDraft ∧
    ((MigrationStorage.update_status exMsDraft "m0"
        MigrationStatusEnum.EXTRACTING 7).1).map MigrationResponse.started_at =
      some (some 7) :=
  ⟨rfl, (C2_timestamps exMsDraft "m0" MigrationStatusEnum.EXTRACTING 7
      exMigDraft rfl).1 ⟨rfl, rfl⟩⟩

/-- C3 counterexample: the claim is false on the code.  Running
`update_status` to COMPLETED on the DRAFT migration at clock 10 and re-running
it to the same status at clock 20 moves both `updated_at` (10 to 20) and
`completed_at` (10 to 20): the re-run is not a no-op on timestamps. -/
theorem C3_counterexample :
    (alGet (MigrationStorage.update_status exMsDraft "m0"
        MigrationStatusEnum.COMPLETED 10).2 "m0").map MigrationResponse.updated_at
        = some 10 ∧
    (alGet (MigrationStorage.update_status
        (MigrationStorage.update_status exMsDraft "m0"
          MigrationStatusEnum.COMPLETED 10).2 "m0"
        MigrationStatusEnum.COMPLETED 20).2 "m0").map MigrationResponse.updated_at
        = some 20 ∧
    (alGet (MigrationStorage.update_status exMsDraft "m0"
        MigrationStatusEnum.COMPLETED 10).2 "m0").map
        MigrationResponse.completed_at = some (some 10) ∧
    (alGet (MigrationStorage.update_status
        (MigrationStorage.update_status exMsDraft "m0"
          MigrationStatusEnum.COMPLETED 10).2 "m0"
        MigrationStatusEnum.COMPLETED 20).2 "m0").map
        MigrationResponse.completed_at = some (some 20) := by
  exact ⟨rfl, rfl, rfl, rfl⟩

/-- C3 (amended): re-running `update_status` to the same status is a no-op on
`started_at` only; `updated_at` is restamped to the second call's clock
reading, and `completed_at` is restamped for terminal statuses (and untouched
for the others). -/
theorem C3_rerun_same_status (ms : MigrationsMap) (id : String)
    (s : MigrationStatusEnum) (now1 now2 : Nat) (m : MigrationResponse)
    (h : alGet ms id = some m) :
    (alGet (MigrationStorage.update_status
          (MigrationStorage.update_status ms id s now1).2 id s now2).2 id).map
        MigrationResponse.started_at =
      (alGet (MigrationStorage.update_status ms id s now1).2 id).map
        MigrationResponse.started_at ∧
    (alGet (MigrationStorage.update_status
          (MigrationStorage.update_status ms id s now1).2 id s now2).2 id).map
        MigrationResponse.updated_at = some now2 ∧
    (s = MigrationStatusEnum.COMPLETED ∨ s = MigrationStatusEnum.FAILED ∨
        s = MigrationStatusEnum.CANCELLED →
      (alGet (MigrationStorage.update_status
            (MigrationStorage.update_status ms id s now1).2 id s now2).2 id).map
          MigrationResponse.completed_at = some (some now2)) ∧
    (¬(s = MigrationStatusEnum.COMPLETED ∨ s = MigrationStatusEnum.FAILED ∨
        s = MigrationStatusEnum.CANCELLED) →
      (alGet (MigrationStorage.update_status
            (MigrationStorage.update_status ms id s now1).2 id s now2).2 id).map
          MigrationResponse.completed_at =
        (alGet (MigrationStorage.update_status ms id s now1).2 id).map
          MigrationResponse.completed_at) := by
  have h1 : alGet (MigrationStorage.update_status ms id s now1).2 id =
      some (MigrationStorage.applyStatus m s now1) := by
    rw [update_status_some ms id s now1 m h, alGet_alSet]
  have h2 : alGet (MigrationStorage.update_status
      (MigrationStorage.update_status ms id s now1).2 id s now2).2 id =
      some (MigrationStorage.applyStatus (MigrationStorage.applyStatus m s now1)
        s now2) := by
    rw [update_status_some _ id s now2 _ h1, alGet_alSet]
  rw [h1, h2]
  refine ⟨?_, ?_, ?_, ?_⟩
  · rw [Option.map_some', Option.map_some', applyStatus_started_at,
      applyStatus_started_at]
    by_cases hs : s = MigrationStatusEnum.EXTRACTING
    · subst hs
      by_cases hm : m.started_at = none
      · simp [hm]
      · simp [hm]
    · simp [hs]
  · simp [applyStatus_updated_at]
  · intro ht
    simp [applyStatus_completed_at, ht]
  · intro ht
    rw [Option.map_some', Option.map_some', applyStatus_completed_at,
      applyStatus_completed_at]
    simp [ht]

/-- Witness for C3 (amended): re-running to CANCELLED at clocks 10 then 20
leaves `started_at` as after the first call and restamps `updated_at` to
20. -/
theorem C3_witness :
    alGet exMsDraft "m0" = some exMigDraft ∧
    (alGet (MigrationStorage.update_status
          (MigrationStorage.update_status exMsDraft "m0"
            MigrationStatusEnum.CANCELLED 10).2 "m0"
          MigrationStatusEnum.CANCELLED 20).2 "m0").map
        MigrationResponse.updated_at = some 20 :=
  ⟨rfl, (C3_rerun_same_status exMsDraft "m0" MigrationStatusEnum.CANCELLED
      10 20 exMigDraft rfl).2.1⟩

/-- C10: for a migration id absent from the storage, `update` returns `None`,
`update_status` returns `None`, `delete` returns `False`, and in each case
the migrations map is left completely unchanged. -/
theorem C10_missing_id_noop (ms : MigrationsMap) (id : String)
    (data : MigrationUpdate) (s : MigrationStatusEnum) (now : Nat)
    (h : alGet ms id = none) :
    MigrationStorage.update ms id data now = (none, ms) ∧
    MigrationStorage.update_status ms id s now = (none, ms) ∧
    MigrationStorage.delete ms id = (false, ms) := by
  refine ⟨?_, ?_, ?_⟩
  · unfold MigrationStorage.update
    rw [h]
  · unfold MigrationStorage.update_status
    rw [h]
  · unfold MigrationStorage.delete
    rw [h]
    rfl

/-- Witness for C10: the id `"zzz"` is absent from the example storage, and
all three operations leave it unchanged. -/
theorem C10_witness :
    alGet exMsDraft "zzz" = none ∧
    MigrationStorage.update exMsDraft "zzz" {} 5 = (none, exMsDraft) ∧
    MigrationStorage.update_status exMsDraft "zzz"
        MigrationStatusEnum.EXTRACTING 5 = (none, exMsDraft) ∧
    MigrationStorage.delete exMsDraft "zzz" = (false, exMsDraft) := by
  refine ⟨rfl, ?_⟩
  exact C10_missing_id_noop exMsDraft "zzz" {} MigrationStatusEnum.EXTRACTING 5 rfl

/-! Helper lemmas about the association-list operations used by the
progress-manager proofs. -/

theorem alGet_mem {α : Type} (l : List (String × α)) (k : String) (v : α)
    (h : alGet l k = some v) : (k, v) ∈ l := by
  induction l with
  | nil => simp [alGet] at h
  | cons p t ih =>
    obtain ⟨k', w⟩ := p
    by_cases hk : k' = k
    · subst hk
      simp [alGet] at h
      subst h
      exact List.mem_cons_self _ _
    · simp [alGet, hk] at h
      exact List.mem_cons_of_mem _ (ih h)

theorem alGet_none_of_not_mem_keys {α : Type} (l : List (String × α)) (k : String)
    (h : k ∉ l.map Prod.fst) : alGet l k = none := by
  induction l with
  | nil => rfl
  | cons p t ih =>
    obtain ⟨k', w⟩ := p
    simp only [List.map_cons, List.mem_cons] at h
    push_neg at h
    have hk : ¬k' = k := fun he => h.1 he.symm
    simp [alGet, hk, ih h.2]

theorem alGet_append_right {α : Type} (l : List (String × α)) (k : String) (v : α)
    (h : alGet l k = none) : alGet (l ++ [(k, v)]) k = some v := by
  induction l with
  | nil => simp [alGet]
  | cons p t ih =>
    obtain ⟨k', w⟩ := p
    by_cases hk : k' = k
    · simp [alGet, hk] at h
    · simp only [List.cons_append, alGet, hk, if_neg hk]
      exact ih (by simpa [alGet, hk] using h)

theorem alDel_append_of_none {α : Type} (l : List (String × α)) (k : String) (v : α)
    (h : alGet l k = none) : alDel (l ++ [(k, v)]) k = l := by
  induction l with
  | nil => simp [alDel]
  | cons p t ih =>
    obtain ⟨k', w⟩ := p
    by_cases hk : k' = k
    · simp [alGet, hk] at h
    · simp only [List.cons_append, alDel, if_neg hk]
      exact congrArg ((k', w) :: ·) (ih (by simpa [alGet, hk] using h))

theorem alSet_alSet {α : Type} (l : List (String × α)) (k : String) (v w : α) :
    alSet (alSet l k v) k w = alSet l k w := by
  induction l with
  | nil => simp [alSet]
  | cons p t ih =>
    obtain ⟨k', u⟩ := p
    by_cases hk : k' = k
    · simp [alSet, hk]
    · simp [alSet, hk, ih]

theorem alSet_of_get {α : Type} (l : List (String × α)) (k : String) (v : α)
    (h : alGet l k = some v) : alSet l k v = l := by
  induction l with
  | nil => simp [alGet] at h
  | cons p t ih =>
    obtain ⟨k', u⟩ := p
    by_cases hk : k' = k
    · subst hk
      simp [alGet] at h
      simp [alSet, h]
    · simp [alGet, hk] at h
      simp [alSet, hk, ih h]

theorem alGet_alDel_of_nodup {α : Type} (l : List (String × α)) (k : String)
    (h : (l.map Prod.fst).Nodup) : alGet (alDel l k) k = none := by
  induction l with
  | nil => rfl
  | cons p t ih =>
    obtain ⟨k', w⟩ := p
    simp only [List.map_cons, List.nodup_cons] at h
    by_cases hk : k' = k
    · subst hk
      simp only [alDel, if_pos rfl]
      exact alGet_none_of_not_mem_keys t k' h.1
    · simp only [alDel, if_neg hk, alGet, if_neg hk]
      exact ih h.2

/-! Helper lemmas about subscribe/unsubscribe, shared by the broadcaster and
event-stream theorems. -/

namespace MigrationProgressManager

theorem fresh_not_registered (m : MigrationProgressManager) (hWF : WF m)
    (id' : String) (chs : List Channel) (h : alGet m.queues id' = some chs) :
    m.nextCh ∉ chs := by
  intro hmem
  exact absurd ((hWF.2 _ (alGet_mem _ _ _ h)).2.2 _ hmem) (lt_irrefl _)

theorem subscribe_unsubscribe_queues (m : MigrationProgressManager)
    (id : String) (hWF : WF m) :
    ((m.subscribe id).2.unsubscribe id (m.subscribe id).1).queues = m.queues := by
  have hfst : (m.subscribe id).1 = m.nextCh := by
    unfold subscribe
    cases alGet m.queues id <;> rfl
  cases hget : alGet m.queues id with
  | none =>
    have hq : (m.subscribe id).2.queues = m.queues ++ [(id, [m.nextCh])] := by
      unfold subscribe
      rw [hget]
    unfold unsubscribe
    rw [hfst, hq, alGet_append_right _ _ _ hget]
    simp only [List.erase_cons_head, List.isEmpty_nil, if_true]
    exact alDel_append_of_none _ _ _ hget
  | some chs =>
    have hq : (m.subscribe id).2.queues = alSet m.queues id (chs ++ [m.nextCh]) := by
      unfold subscribe
      rw [hget]
    have hfresh : m.nextCh ∉ chs := fresh_not_registered m hWF id chs hget
    have hne : chs ≠ [] := (hWF.2 _ (alGet_mem _ _ _ hget)).1
    have herase : (chs ++ [m.nextCh]).erase m.nextCh = chs := by
      rw [List.erase_append_right _ hfresh, List.erase_cons_head, List.append_nil]
    have hempty : chs.isEmpty = false := by
      cases chs with
      | nil => exact absurd rfl hne
      | cons c cs => rfl
    unfold unsubscribe
    rw [hfst, hq, alGet_alSet]
    simp only [herase, hempty, Bool.false_eq_true, if_false]
    rw [alSet_alSet, alSet_of_get _ _ _ hget]

end MigrationProgressManager

/-- A concrete well-formed manager with one subscriber (channel 0) for
migration `"a"`. -/
def exMgr : MigrationProgressManager :=
  { nextCh := 1, queues := [("a", [0])], buffers := [(0, [])] }

/-- C4: broadcasting for a migration id with no registered subscribers is a
complete no-op — the whole manager state (registry included, as well as every
existing subscriber channel's buffer) is returned unchanged, so the event is
not buffered for subscribers that arrive later. -/
theorem C4_broadcast_noop (m : MigrationProgressManager) (id : String)
    (e : SSEvent) (h : alGet m.queues id = none) :
    m.broadcast id e = m := by
  unfold MigrationProgressManager.broadcast
  rw [h]

/-- Witness for C4: `exMgr` has no entry for `"b"`, and broadcasting an event
for `"b"` leaves it unchanged. -/
theorem C4_witness :
    alGet exMgr.queues "b" = none ∧
    exMgr.broadcast "b" { etype := some "progress" } = exMgr :=
  ⟨rfl, C4_broadcast_noop exMgr "b" { etype := some "progress" } rfl⟩

/-- C5: on a well-formed manager, `subscribe id` returns a channel not
registered for any id and registers it under `id`; `unsubscribe` removes
exactly that channel, deleting the id's entry once empty — so subscribe
immediately followed by unsubscribe of the returned channel restores the
registry — and `unsubscribe` for an unknown id or an unregistered channel
changes nothing. -/
theorem C5_subscribe_unsubscribe (m : MigrationProgressManager) (id : String)
    (hWF : m.WF) :
    (∀ id' chs, alGet m.queues id' = some chs → (m.subscribe id).1 ∉ chs) ∧
    (∃ chs, alGet (m.subscribe id).2.queues id = some chs ∧
      (m.subscribe id).1 ∈ chs) ∧
    ((m.subscribe id).2.unsubscribe id (m.subscribe id).1).queues = m.queues ∧
    (∀ id' ch, alGet m.queues id' = none → m.unsubscribe id' ch = m) ∧
    (∀ id' chs ch, alGet m.queues id' = some chs → ch ∉ chs →
      m.unsubscribe id' ch = m) ∧
    (∀ id' chs ch, alGet m.queues id' = some chs → chs.erase ch ≠ [] →
      alGet (m.unsubscribe id' ch).queues id' = some (chs.erase ch)) ∧
    (∀ id' chs ch, alGet m.queues id' = some chs → chs.erase ch = [] →
      alGet (m.unsubscribe id' ch).queues id' = none) := by
  have hfst : (m.subscribe id).1 = m.nextCh := by
    unfold MigrationProgressManager.subscribe
    cases alGet m.queues id <;> rfl
  refine ⟨?_, ?_, m.subscribe_unsubscribe_queues id hWF, ?_, ?_, ?_, ?_⟩
  · intro id' chs hget
    rw [hfst]
    exact MigrationProgressManager.fresh_not_registered m hWF id' chs hget
  · cases hget : alGet m.queues id with
    | none =>
      refine ⟨[m.nextCh], ?_, by rw [hfst]; exact List.mem_singleton.2 rfl⟩
      have hq : (m.subscribe id).2.queues = m.queues ++ [(id, [m.nextCh])] := by
        unfold MigrationProgressManager.subscribe
        rw [hget]
      rw [hq]
      exact alGet_append_right _ _ _ hget
    | some chs =>
      refine ⟨chs ++ [m.nextCh], ?_, by rw [hfst]; simp⟩
      have hq : (m.subscribe id).2.queues = alSet m.queues id (chs ++ [m.nextCh]) := by
        unfold MigrationProgressManager.subscribe
        rw [hget]
      rw [hq]
      exact alGet_alSet _ _ _
  · intro id' ch hget
    unfold MigrationProgressManager.unsubscribe
    rw [hget]
  · intro id' chs ch hget hnomem
    unfold MigrationProgressManager.unsubscribe
    rw [hget]
    have hne : chs ≠ [] := (hWF.2 _ (alGet_mem _ _ _ hget)).1
    have hempty : chs.isEmpty = false := by
      cases chs with
      | nil => exact absurd rfl hne
      | cons c cs => rfl
    simp only [List.erase_of_not_mem hnomem, hempty, Bool.false_eq_true, if_false]
    rw [alSet_of_get _ _ _ hget]
  · intro id' chs ch hget hne
    unfold MigrationProgressManager.unsubscribe
    rw [hget]
    have hempty : (chs.erase ch).isEmpty = false := by
      cases he : chs.erase ch with
      | nil => exact absurd he hne
      | cons c cs => rfl
    simp only [hempty, Bool.false_eq_true, if_false]
    exact alGet_alSet _ _ _
  · intro id' chs ch hget hnil
    unfold MigrationProgressManager.unsubscribe
    rw [hget]
    simp only [hnil, List.isEmpty_nil, if_true]
    exact alGet_alDel_of_nodup _ _ hWF.1

/-- Witness for C5: `exMgr` is well-formed; subscribing to `"b"` and
unsubscribing the returned channel restores the registry. -/
theorem C5_witness :
    exMgr.WF ∧
    ((exMgr.subscribe "b").2.unsubscribe "b" (exMgr.subscribe "b").1).queues
        = exMgr.queues :=
  ⟨by decide, (C5_subscribe_unsubscribe exMgr "b" (by decide)).2.2.1⟩

/-- Helper for the event-stream theorem: in the frames produced by the
generator loop, a frame forwarding a `complete`/`error` event is always the
last frame — nothing is yielded after it. -/
theorem eventLoop_terminal_ends (arrivals : List (Option SSEvent)) :
    ∀ l1 n e l2, eventLoop arrivals = l1 ++ StreamItem.message n e :: l2 →
      isTerminalEvent e = true → l2 = [] := by
  induction arrivals with
  | nil =>
    intro l1 n e l2 hEq _
    exact absurd hEq (by simp [eventLoop])
  | cons a rest ih =>
    intro l1 n e l2 hEq hTerm
    cases a with
    | none =>
      rw [show eventLoop (none :: rest) = .keepalive :: eventLoop rest from rfl]
        at hEq
      cases l1 with
      | nil => simp at hEq
      | cons x l1' =>
        rw [List.cons_append] at hEq
        exact ih l1' n e l2 (List.cons.inj hEq).2 hTerm
    | some ev =>
      by_cases ht : isTerminalEvent ev
      · rw [show eventLoop (some ev :: rest) =
            [.message (ev.etype.getD "message") ev] from by
              simp [eventLoop, ht]] at hEq
        cases l1 with
        | nil =>
          simpa using (List.cons.inj hEq.symm).2.symm
        | cons x l1' =>
          rw [List.cons_append] at hEq
          exact absurd (List.cons.inj hEq).2.symm (by simp)
      · rw [show eventLoop (some ev :: rest) =
            .message (ev.etype.getD "message") ev :: eventLoop rest from by
              simp [eventLoop, ht]] at hEq
        cases l1 with
        | nil =>
          obtain ⟨h1, _⟩ := List.cons.inj hEq
          obtain ⟨-, h1e⟩ := StreamItem.message.inj h1
          subst h1e
          exact absurd hTerm (by simp [ht])
        | cons x l1' =>
          rw [List.cons_append] at hEq
          exact ih l1' n e l2 (List.cons.inj hEq).2 hTerm

/-- C6: for every subscriber session of the SSE endpoint (on a well-formed
manager), (i) the stream ends after forwarding a `complete`/`error` event —
no frame follows it; (ii) an expiry of the idle window with no event (the
30-second `asyncio.wait_for` timeout, abstracted as a `none` arrival) yields
a synthetic keepalive frame instead of an event frame; (iii) on termination
of the session the subscriber's channel has been unsubscribed — the registry
is exactly as before the session, and the session's channel is registered
under no id. -/
theorem C6_event_stream (m : MigrationProgressManager) (id : String)
    (arrivals : List (Option SSEvent)) (hWF : m.WF) :
    (∀ l1 n e l2, (migration_events m id arrivals).1 =
        l1 ++ StreamItem.message n e :: l2 → isTerminalEvent e = true →
        l2 = []) ∧
    (∀ rest, eventLoop (none :: rest) = StreamItem.keepalive :: eventLoop rest) ∧
    ((migration_events m id arrivals).2.queues = m.queues) ∧
    (∀ id' chs, alGet (migration_events m id arrivals).2.queues id' = some chs →
      (m.subscribe id).1 ∉ chs) := by
  have hq : (migration_events m id arrivals).2.queues = m.queues :=
    m.subscribe_unsubscribe_queues id hWF
  have hfst : (m.subscribe id).1 = m.nextCh := by
    unfold MigrationProgressManager.subscribe
    cases alGet m.queues id <;> rfl
  refine ⟨?_, fun _ => rfl, hq, ?_⟩
  · intro l1 n e l2 hEq hTerm
    have hstream : (migration_events m id arrivals).1 =
        StreamItem.connected :: eventLoop arrivals := rfl
    rw [hstream] at hEq
    cases l1 with
    | nil => simp at hEq
    | cons x l1' =>
      rw [List.cons_append] at hEq
      exact eventLoop_terminal_ends arrivals l1' n e l2 (List.cons.inj hEq).2 hTerm
  · intro id' chs hget
    rw [hq] at hget
    rw [hfst]
    exact MigrationProgressManager.fresh_not_registered m hWF id' chs hget

/-- Witness for C6: on the concrete well-formed manager, a session for `"b"`
that receives one `complete` event leaves the registry as it was. -/
theorem C6_witness :
    exMgr.WF ∧
    (migration_events exMgr "b" [some { etype := some "complete" }]).2.queues
        = exMgr.queues :=
  ⟨by decide,
    (C6_event_stream exMgr "b" [some { etype := some "complete" }]
      (by decide)).2.2.1⟩

/-! Concrete preview inputs for the closed statements below. -/

/-- A preview request with a single `direct` field mapping on a record
`{"first_name": "Ana"}`. -/
def exPreviewReq : PreviewRequest :=
  { source_service := "stripe"
    source_entity := "Customer"
    target_service := "crm"
    target_entity := "Contact"
    source_record := [("first_name", Value.vStr "Ana")]
    field_mappings :=
      [{ source_field := "first_name", target_field := "name"
         transform := "direct", config := [] }] }

/-- A target schema whose `email` field is required. -/
def exSchema : EntitySchema :=
  { service := "crm", entity := "Contact"
    fields := [{ name := "email", ftype := "string", required := true }] }

/-- C7 counterexample: the claim is false on the code.  On the request above
the transform succeeds with no errors and preview reports
`is_valid = true`, although the transformed record `{"name": "Ana"}` is
missing the required target-schema field `email` — the Record Validator
(which would report it, second conjunct) is never run by preview, so a
transformed record missing a required target-schema field is NOT reported
invalid. -/
theorem C7_counterexample :
    preview_transformation exPreviewReq =
      Except.ok { source_data := [("first_name", Value.vStr "Ana")]
                  transformed_data := [("name", Value.vStr "Ana")]
                  validation_errors := []
                  is_valid := true } ∧
    (RecordValidator.validate
        { data := [("name", Value.vStr "Ana")], validation_errors := [] }
        exSchema).2 = false := by
  exact ⟨rfl, rfl⟩

/-- C7 (amended): preview runs the Transform Engine only — whenever the
engine returns a transformed record, preview returns it with
`is_valid == false` exactly when the transform-time error list is non-empty;
no Record Validator pass and no schema check take place (the result depends
on no schema), so validator-detectable problems such as a missing required
target field do not make `is_valid` false. -/
theorem C7_preview_no_validation (req : PreviewRequest) (tr : TransformedRecord)
    (h : transform_record (previewSourceRecord req) (previewEntityMapping req)
        = Except.ok tr) :
    preview_transformation req =
      Except.ok { source_data := req.source_record
                  transformed_data := tr.data
                  validation_errors := tr.validation_errors
                  is_valid := tr.validation_errors.isEmpty } := by
  have hif : (if tr.validation_errors.isEmpty then ([] : List String)
      else tr.validation_errors) = tr.validation_errors := by
    cases htr : tr.validation_errors with
    | nil => simp
    | cons a t => simp [List.isEmpty]
  unfold preview_transformation
  rw [h]
  simp only [hif]

/-- Witness for C7 (amended): on the concrete request the engine returns the
record `{"name": "Ana"}` with no errors, and preview reports it with
`is_valid = true`. -/
theorem C7_witness :
    transform_record (previewSourceRecord exPreviewReq)
        (previewEntityMapping exPreviewReq) =
      Except.ok { data := [("name", Value.vStr "Ana")], validation_errors := [] } ∧
    preview_transformation exPreviewReq =
      Except.ok { source_data := [("first_name", Value.vStr "Ana")]
                  transformed_data := [("name", Value.vStr "Ana")]
                  validation_errors := []
                  is_valid := true } :=
  ⟨rfl, C7_preview_no_validation exPreviewReq
    { data := [("name", Value.vStr "Ana")], validation_errors := [] } rfl⟩

/-- Helper: an unrecognized transform kind makes the per-field dispatch
produce the unknown-kind configuration error. -/
theorem applyTransform_unknown (record : List (String × Value))
    (sourceVal : Option Value) (t : String) (config : List (String × Value))
    (h : t ∉ TRANSFORM_TYPES) :
    applyTransform record sourceVal t config =
      TransformOutcome.configError ("Unknown transform type: " ++ t) := by
  simp only [TRANSFORM_TYPES, List.mem_cons, List.not_mem_nil, or_false,
    not_or] at h
  obtain ⟨h1, h2, h3, h4, h5, h6, h7, h8, h9, h10, h11, h12, h13, h14, h15,
    h16, h17⟩ := h
  unfold applyTransform
  simp only [if_neg h1, if_neg h2, if_neg h3, if_neg h4, if_neg h5,
    if_neg h12, if_neg h14, if_neg h15, if_neg h16, if_neg h10, if_neg h17]

/-- Helper: a field mapping with an unrecognized transform kind anywhere in
the list makes the engine's invocation fail with a configuration error. -/
theorem transformFields_unknown (record : SourceRecord)
    (fms : List FieldMapping) (fm : FieldMapping) (hmem : fm ∈ fms)
    (h : fm.transform ∉ TRANSFORM_TYPES) :
    ∃ msg, transformFields record fms = Except.error msg := by
  induction fms with
  | nil => cases hmem
  | cons g rest ih =>
    rcases List.mem_cons.1 hmem with heq | hmem'
    · subst heq
      unfold transformFields
      rw [applyTransform_unknown _ _ _ _ h]
      exact ⟨_, rfl⟩
    · unfold transformFields
      cases happ : applyTransform record.data
          (resolvePath record.data g.source_field) g.transform g.config with
      | configError msg => exact ⟨msg, rfl⟩
      | ok v =>
        obtain ⟨msg, hmsg⟩ := ih hmem'
        exact ⟨msg, by rw [hmsg]; rfl⟩
      | fieldError msg' =>
        obtain ⟨msg, hmsg⟩ := ih hmem'
        exact ⟨msg, by rw [hmsg]; rfl⟩

/-- A field mapping whose transform kind `"bogus"` is not in the recognized
catalog. -/
def exBadFm : FieldMapping :=
  { source_field := "x", target_field := "y", transform := "bogus", config := [] }

/-- A mapping-save request carrying the unrecognized kind. -/
def exBadReq : MappingSaveRequest :=
  { name := "m", source_service := "a", source_entity := "A"
    target_service := "b", target_entity := "B", field_mappings := [exBadFm] }

/-- A preview request carrying the unrecognized kind. -/
def exBadPreviewReq : PreviewRequest :=
  { source_service := "a", source_entity := "A", target_service := "b"
    target_entity := "B", source_record := [("x", Value.vStr "v")]
    field_mappings := [exBadFm] }

/-- C8 counterexample: the claim is false on the save half.  `"bogus"` is not
a recognized kind, yet `save_mapping` stores the request unrejected: the
stored mapping keeps the `"bogus"` field mapping and is present in the
storage. -/
theorem C8_counterexample :
    "bogus" ∉ TRANSFORM_TYPES ∧
    (save_mapping [] "id1" 3 exBadReq).1.field_mappings = [exBadFm] ∧
    alGet (save_mapping [] "id1" 3 exBadReq).2 "id1" =
      some (save_mapping [] "id1" 3 exBadReq).1 := by
  exact ⟨by decide, rfl, rfl⟩

/-- C8 (amended): `save_mapping` performs no validation — every request,
recognized kinds or not, is stored verbatim and never rejected; a preview
request whose field mappings contain an unrecognized transform kind is
rejected as a configuration error (HTTP 400) rather than executed. -/
theorem C8_save_accepts_preview_rejects (store : MappingsMap)
    (mapping_id : String) (now : Nat) (data : MappingSaveRequest) :
    ((save_mapping store mapping_id now data).1.field_mappings
        = data.field_mappings ∧
      alGet (save_mapping store mapping_id now data).2 mapping_id =
        some (save_mapping store mapping_id now data).1) ∧
    (∀ req : PreviewRequest, ∀ fm ∈ req.field_mappings,
      fm.transform ∉ TRANSFORM_TYPES →
      ∃ msg, preview_transformation req = Except.error msg) := by
  refine ⟨⟨rfl, alGet_alSet _ _ _⟩, ?_⟩
  intro req fm hmem hbad
  obtain ⟨msg, hmsg⟩ :=
    transformFields_unknown (previewSourceRecord req) req.field_mappings fm
      hmem hbad
  refine ⟨msg, ?_⟩
  unfold preview_transformation transform_record
  rw [show (previewEntityMapping req).field_mappings = req.field_mappings
    from rfl, hmsg]
  rfl

/-- Witness for C8: the `"bogus"` save request is stored verbatim, and the
`"bogus"` preview request is rejected. -/
theorem C8_witness :
    (save_mapping [] "id1" 3 exBadReq).1.field_mappings = exBadReq.field_mappings ∧
    (∃ msg, preview_transformation exBadPreviewReq = Except.error msg) :=
  ⟨(C8_save_accepts_preview_rejects [] "id1" 3 exBadReq).1.1,
    (C8_save_accepts_preview_rejects [] "id1" 3 exBadReq).2 exBadPreviewReq
      exBadFm (List.mem_singleton.2 rfl) (by decide)⟩

/-- C9 counterexample: the claim is false on the code.  A file field-mapping
dictionary with no `transform` key is silently given the identity `"direct"`
kind by the loader, and a save request with the unrecognized kind `"bogus"`
is stored by `MappingStorage.create` with that kind intact — stored field
mappings are not confined to the recognized catalog. -/
theorem C9_counterexample :
    (loadFieldMapping { transform := none }).transform = "direct" ∧
    "bogus" ∉ TRANSFORM_TYPES ∧
    ((MappingStorage.create [] "id2" 4 exBadReq).1.field_mappings.map
        FieldMapping.transform) = ["bogus"] ∧
    alGet (MappingStorage.create [] "id2" 4 exBadReq).2 "id2" =
      some (MappingStorage.create [] "id2" 4 exBadReq).1 := by
  exact ⟨rfl, by decide, rfl, rfl⟩

/-- C9 (amended): transform kinds of stored field mappings are never
validated against the recognized catalog — `MappingStorage.create` stores the
request's field mappings verbatim (whatever their kinds), the file loader
stores a present kind as-is even when unrecognized, and a field mapping whose
kind is absent from the file IS silently given the identity `"direct"`
kind. -/
theorem C9_stored_kinds_unvalidated (store : MappingsMap)
    (mapping_id : String) (now : Nat) (data : MappingSaveRequest) :
    ((MappingStorage.create store mapping_id now data).1.field_mappings
        = data.field_mappings) ∧
    (∀ fm : FileFieldMapping, fm.transform = none →
      (loadFieldMapping fm).transform = "direct") ∧
    (∀ fm : FileFieldMapping, ∀ t : String, fm.transform = some t →
      (loadFieldMapping fm).transform = t) := by
  refine ⟨rfl, ?_, ?_⟩
  · intro fm h
    unfold loadFieldMapping
    rw [h]
    rfl
  · intro fm t h
    unfold loadFieldMapping
    rw [h]
    rfl

/-- Witness for C9 (amended): concrete instantiations of the three parts. -/
theorem C9_witness :
    ((MappingStorage.create [] "id2" 4 exBadReq).1.field_mappings
        = exBadReq.field_mappings) ∧
    (loadFieldMapping { transform := none }).transform = "direct" ∧
    (loadFieldMapping { transform := some "split_name" }).transform
        = "split_name" :=
  ⟨(C9_stored_kinds_unvalidated [] "id2" 4 exBadReq).1,
    (C9_stored_kinds_unvalidated [] "id2" 4 exBadReq).2.1
      { transform := none } rfl,
    (C9_stored_kinds_unvalidated [] "id2" 4 exBadReq).2.2
      { transform := some "split_name" } "split_name" rfl⟩
